import Mathlib

/-!
Shallow embedding of the test-support utilities in
`Lib/test/test_importlib/util.py` and of the regex smoke-test script
`extra_tests/snippets/stdlib_re.py`, with theorems about the helpers'
state handling, mock importer protocol behaviour, and the reader stub.

Python context managers are embedded as functions that take the managed
body explicitly (`body : Sys → Sys × Except Exc Unit`): running the
context manager means running its entry code, the body (which may end in
an exception, the `Except.error` case) and its exit/`finally` code, and
returning the final interpreter state together with the outcome.
-/

/-- Exceptions that appear in the embedded code.  `other` stands for any
further `Exception` subclass an arbitrary test body or registered module
code may raise. -/
inductive Exc where
  | importError
  | keyError
  | valueError
  | typeError
  | other (tag : Nat)
deriving DecidableEq, Repr

/-- Opaque Python objects (lists, dicts, file objects, ...) tracked by
identity only. -/
abbrev Val := Nat

/-- The fresh empty list `[]` used as a default by `import_state`. -/
def emptyList : Val := 0

/-- The fresh empty dict `{}` used as a default by `import_state`. -/
def emptyDict : Val := 1

/-- The Python `None` object. -/
def noneVal : Val := 2

/-- A module object as created by `_ImporterMock.__init__`
(`types.ModuleType` plus the attributes the mock sets on it). -/
structure PyModule where
  name : String
  file : String
  package : Option String
  attr : String
  path : Option (List String)
deriving DecidableEq, Repr

/-- Dictionary lookup (`d[k]` / `k in d`). -/
def alookup {α : Type} : List (String × α) → String → Option α
  | [], _ => none
  | (k, v) :: rest, key => if k = key then some v else alookup rest key

/-- Dictionary deletion (`del d[k]`, a no-op when the key is absent —
used where the Python code wraps `del` in `except KeyError: pass`). -/
def aerase {α : Type} : List (String × α) → String → List (String × α)
  | [], _ => []
  | (k, v) :: rest, key =>
      if k = key then aerase rest key else (k, v) :: aerase rest key

/-- Dictionary assignment `d[k] = v`. -/
def ainsert {α : Type} (m : List (String × α)) (k : String) (v : α) :
    List (String × α) :=
  (k, v) :: aerase m k

/-- The mutable `sys` state the helpers read and write. -/
structure Sys where
  modules : List (String × PyModule)
  meta_path : Val
  path : Val
  path_hooks : Val
  path_importer_cache : Val
  dont_write_bytecode : Bool
  pycache_prefix : Val

/-- The result of running a managed body from a given state: the state
it leaves behind and either normal completion or an exception. -/
abbrev Body := Sys → Sys × Except Exc Unit

/-- Names `uncache` refuses to uncache
(`if name in ('sys', 'marshal', 'imp')`). -/
def forbiddenName (n : String) : Bool :=
  n = "sys" || n = "marshal" || n = "imp"

/-- The entry loop of `uncache`: walk the names in order; on a forbidden
name stop with `True` (ValueError raised, earlier deletions kept),
otherwise delete the name from the modules dict and continue. -/
def uncacheEnter : List String → List (String × PyModule) →
    List (String × PyModule) × Bool
  | [], m => (m, false)
  | n :: rest, m =>
      if forbiddenName n then (m, true)
      else uncacheEnter rest (aerase m n)

/-- Python `uncache(*names)`: delete each name from `sys.modules` on entry
(refusing `sys`/`marshal`/`imp` with ValueError), run the body, and in
the `finally` block delete each name again, ignoring `KeyError`. -/
def uncache (names : List String) (body : Body) (s : Sys) :
    Sys × Except Exc Unit :=
  let entered := uncacheEnter names s.modules
  if entered.2 then
    ({ s with modules := entered.1 }, Except.error Exc.valueError)
  else
    let br := body { s with modules := entered.1 }
    ({ br.1 with modules := names.foldl aerase br.1.modules }, br.2)

/-- Python `kwargs` processing for one attribute of `import_state`:
if the attribute is a key of `kwargs`, take its value and delete the
key, else use the default. -/
def popKw (kw : List (String × Val)) (name : String) (dflt : Val) :
    Val × List (String × Val) :=
  match alookup kw name with
  | some v => (v, aerase kw name)
  | none => (dflt, kw)

/-- The attribute-replacing loop of `import_state`, unrolled over the
literal sequence `meta_path, path, path_hooks, path_importer_cache`:
each attribute is set to the matching `kwargs` value (consumed from the
dict) or to a fresh default.  Returns the updated state and the leftover
`kwargs`. -/
def import_state_apply (kwargs : List (String × Val)) (s : Sys) :
    Sys × List (String × Val) :=
  let p1 := popKw kwargs "meta_path" emptyList
  let s1 := { s with meta_path := p1.1 }
  let p2 := popKw p1.2 "path" emptyList
  let s2 := { s1 with path := p2.1 }
  let p3 := popKw p2.2 "path_hooks" emptyList
  let s3 := { s2 with path_hooks := p3.1 }
  let p4 := popKw p3.2 "path_importer_cache" emptyDict
  ({ s3 with path_importer_cache := p4.1 }, p4.2)

/-- Python `import_state(**kwargs)`: save the four attributes (the loop reads
each original before replacing it, and each iteration touches only its
own attribute, so the saved values are the incoming state's fields),
replace them, raise ValueError inside the `try` if any `kwargs` remain,
else run the body; the `finally` block restores the four originals on
every path. -/
def import_state (kwargs : List (String × Val)) (body : Body) (s : Sys) :
    Sys × Except Exc Unit :=
  let origMeta := s.meta_path
  let origPath := s.path
  let origHooks := s.path_hooks
  let origCache := s.path_importer_cache
  let applied := import_state_apply kwargs s
  let restore := fun (t : Sys) =>
    { t with meta_path := origMeta, path := origPath,
             path_hooks := origHooks, path_importer_cache := origCache }
  if applied.2.length ≠ 0 then
    (restore applied.1, Except.error Exc.valueError)
  else
    let br := body applied.1
    (restore br.1, br.2)

/-- Python `temporary_pycache_prefix(prefix)`: save `sys.pycache_prefix`, set
it to the given prefix, run the body, restore in `finally`. -/
def temporary_pycache_prefix (p : Val) (body : Body) (s : Sys) :
    Sys × Except Exc Unit :=
  let orig := Sys.pycache_prefix s
  let br := body { s with pycache_prefix := p }
  ({ br.1 with pycache_prefix := orig }, br.2)

/-- The inner `wrapper` produced by `writes_bytecode_files`: save
`sys.dont_write_bytecode`, set it to `False`, call the wrapped function,
restore in `finally`.  The wrapped function's state change and outcome
(return value or exception) pass through. -/
def writes_bytecode_wrapper (fxn : Sys → Sys × Except Exc Val) (s : Sys) :
    Sys × Except Exc Val :=
  let original := s.dont_write_bytecode
  let fr := fxn { s with dont_write_bytecode := false }
  ({ fr.1 with dont_write_bytecode := original }, fr.2)

/-- Python `writes_bytecode_files(fxn)`: at decoration time, if
`sys.dont_write_bytecode` is set the decorator returns a lambda that
does nothing and returns `None`; otherwise it returns the wrapper. -/
def writes_bytecode_files (dwb_at_decoration : Bool)
    (fxn : Sys → Sys × Except Exc Val) : Sys → Sys × Except Exc Val :=
  if dwb_at_decoration then fun s => (s, Except.ok noneVal)
  else writes_bytecode_wrapper fxn

/-- C1: every invocation of `import_state` (with any keyword arguments),
of `temporary_pycache_prefix`, and of the function produced by
`writes_bytecode_files` leaves the sys attributes it replaces at their
original values on exit, for every managed body or wrapped function,
including bodies that end in an exception. -/
theorem import_helpers_restore_sys_state :
    (∀ (kwargs : List (String × Val)) (body : Body) (s : Sys),
      ((import_state kwargs body s).1).meta_path = s.meta_path ∧
      ((import_state kwargs body s).1).path = s.path ∧
      ((import_state kwargs body s).1).path_hooks = s.path_hooks ∧
      ((import_state kwargs body s).1).path_importer_cache =
        s.path_importer_cache) ∧
    (∀ (p : Val) (body : Body) (s : Sys),
      Sys.pycache_prefix (( temporary_pycache_prefix p body s).1) =
        Sys.pycache_prefix s) ∧
    (∀ (dwb : Bool) (fxn : Sys → Sys × Except Exc Val) (s : Sys),
      ((writes_bytecode_files dwb fxn s).1).dont_write_bytecode =
        s.dont_write_bytecode) := by
  refine ⟨?_, ?_, ?_⟩
  · intro kwargs body s
    unfold import_state
    dsimp only
    split <;> exact ⟨rfl, rfl, rfl, rfl⟩
  · intro p body s
    rfl
  · intro dwb fxn s
    unfold writes_bytecode_files
    split
    · rfl
    · rfl

theorem alookup_aerase_self {α : Type} (m : List (String × α)) (k : String) :
    alookup (aerase m k) k = none := by
  induction m with
  | nil => rfl
  | cons p rest ih =>
    obtain ⟨k1, v1⟩ := p
    by_cases h : k1 = k
    · simp [aerase, h, ih]
    · simp [aerase, alookup, h, ih]

theorem alookup_aerase_ne {α : Type} (m : List (String × α)) (k k2 : String)
    (h : k2 ≠ k) : alookup (aerase m k) k2 = alookup m k2 := by
  induction m with
  | nil => rfl
  | cons p rest ih =>
    obtain ⟨k1, v1⟩ := p
    simp only [aerase]
    by_cases h1 : k1 = k
    · rw [if_pos h1, ih]
      simp only [alookup]
      rw [if_neg (by rw [h1]; exact fun he => h he.symm)]
    · rw [if_neg h1]
      simp only [alookup]
      by_cases h2 : k1 = k2
      · rw [if_pos h2, if_pos h2]
      · rw [if_neg h2, if_neg h2, ih]

theorem alookup_aerase_none {α : Type} (m : List (String × α)) (k k2 : String)
    (h : alookup m k2 = none) : alookup (aerase m k) k2 = none := by
  by_cases he : k2 = k
  · rw [he]; exact alookup_aerase_self m k
  · rw [alookup_aerase_ne m k k2 he]; exact h

theorem alookup_foldl_aerase_none {α : Type} (names : List String)
    (m : List (String × α)) (n : String) (h : alookup m n = none) :
    alookup (names.foldl aerase m) n = none := by
  induction names generalizing m with
  | nil => exact h
  | cons hd tl ih =>
    simp only [List.foldl_cons]
    exact ih (aerase m hd) (alookup_aerase_none m hd n h)

theorem alookup_foldl_aerase_mem {α : Type} (names : List String)
    (m : List (String × α)) (n : String) (h : n ∈ names) :
    alookup (names.foldl aerase m) n = none := by
  induction names generalizing m with
  | nil => cases h
  | cons hd tl ih =>
    simp only [List.foldl_cons]
    rcases List.mem_cons.mp h with he | hm
    · exact alookup_foldl_aerase_none tl (aerase m hd) n
        (by rw [he]; exact alookup_aerase_self m hd)
    · exact ih (aerase m hd) hm

theorem alookup_foldl_aerase_not_mem {α : Type} (names : List String)
    (m : List (String × α)) (k : String) (h : k ∉ names) :
    alookup (names.foldl aerase m) k = alookup m k := by
  induction names generalizing m with
  | nil => rfl
  | cons hd tl ih =>
    simp only [List.foldl_cons]
    have h1 : k ∉ tl := fun hx => h (List.mem_cons_of_mem hd hx)
    have h2 : k ≠ hd := fun hx => h (by rw [hx]; exact List.mem_cons_self hd tl)
    rw [ih (aerase m hd) h1, alookup_aerase_ne m hd k h2]

theorem uncacheEnter_ok (names : List String)
    (m : List (String × PyModule))
    (h : ∀ n ∈ names, forbiddenName n = false) :
    uncacheEnter names m = (names.foldl aerase m, false) := by
  induction names generalizing m with
  | nil => rfl
  | cons hd tl ih =>
    have hh : forbiddenName hd = false := h hd (List.mem_cons_self hd tl)
    simp only [uncacheEnter, hh, Bool.false_eq_true, if_false, List.foldl_cons]
    exact ih (aerase m hd) (fun n hn => h n (List.mem_cons_of_mem hd hn))

/-- A sample pre-existing module object, for concrete instantiations. -/
def m0 : PyModule :=
  { name := "foo", file := "<f>", package := none, attr := "foo", path := none }

/-- A sample interpreter state whose module cache already holds `foo`. -/
def s0 : Sys :=
  { modules := [("foo", m0)], meta_path := 3, path := 4, path_hooks := 5,
    path_importer_cache := 6, dont_write_bytecode := false,
    pycache_prefix := 7 }

/-- A body that does nothing and completes normally. -/
def idBody : Body := fun t => (t, Except.ok ())

/-- C2, counterexample: before entering `uncache("foo")` the module
cache binds `foo` to `m0`; after the context manager exits (with a body
that changes nothing) the entry for `foo` is gone, not restored — so it
is false that every `sys.modules` entry present before entry is present
again, bound to the same module object, after exit. -/
theorem uncache_does_not_restore_counterexample :
    alookup ( Sys.modules s0) "foo" = some m0 ∧
    alookup ( Sys.modules ((uncache ["foo"] idBody s0).1)) "foo" = none := by
  constructor
  · rfl
  · rfl

/-- C2, amended: `uncache` deletes each named entry from `sys.modules`
on entry and deletes it again on exit rather than restoring it, so
after exit (for any body) no named entry is present; entries whose key
is not among the names are untouched by `uncache` itself — with a body
that changes nothing they are present after exit, bound to the same
module object as before.  (`create_modules` removes its import names
through this same mechanism.) -/
theorem uncache_deletes_and_preserves_others (names : List String)
    (body : Body) (s : Sys)
    (h : ∀ n ∈ names, forbiddenName n = false) :
    (∀ n ∈ names, alookup ( Sys.modules ((uncache names body s).1)) n = none) ∧
    (∀ k, k ∉ names →
      alookup ( Sys.modules ((uncache names idBody s).1)) k =
        alookup ( Sys.modules s) k) := by
  constructor
  · intro n hn
    unfold uncache
    rw [uncacheEnter_ok names s.modules h]
    dsimp only
    exact alookup_foldl_aerase_mem names _ n hn
  · intro k hk
    unfold uncache
    rw [uncacheEnter_ok names s.modules h]
    exact (alookup_foldl_aerase_not_mem names _ k hk).trans
      (alookup_foldl_aerase_not_mem names _ k hk)

/-- C2, witness: with the sample state, `uncache("foo")` leaves no entry
for `foo` after exit while the unrelated key `bar` still looks up as it
did before. -/
theorem uncache_deletes_witness :
    alookup ( Sys.modules ((uncache ["foo"] idBody s0).1)) "foo" = none ∧
    alookup ( Sys.modules ((uncache ["foo"] idBody s0).1)) "bar" =
      alookup ( Sys.modules s0) "bar" :=
  ⟨(uncache_deletes_and_preserves_others ["foo"] idBody s0 (by decide)).1
      "foo" (by decide),
   (uncache_deletes_and_preserves_others ["foo"] idBody s0 (by decide)).2
      "bar" (by decide)⟩

theorem mem_aerase {α : Type} (m : List (String × α)) (key k : String)
    (v : α) (hm : (k, v) ∈ m) (hne : k ≠ key) : (k, v) ∈ aerase m key := by
  induction m with
  | nil => cases hm
  | cons p rest ih =>
    rcases List.mem_cons.mp hm with he | hr
    · rw [← he]
      simp only [aerase]
      rw [if_neg (by simpa [← he] using hne)]
      exact List.mem_cons_self _ _
    · simp only [aerase]
      split
      · exact ih hr
      · exact List.mem_cons_of_mem _ (ih hr)

theorem mem_popKw (kw : List (String × Val)) (name : String)
    (dflt : Val) (k : String) (v : Val) (hm : (k, v) ∈ kw)
    (hne : k ≠ name) : (k, v) ∈ (popKw kw name dflt).2 := by
  unfold popKw
  cases alookup kw name with
  | none => exact hm
  | some w => exact mem_aerase kw name k v hm hne

/-- C10: `import_state` called with any keyword argument whose name is
not one of `meta_path`, `path`, `path_hooks`, `path_importer_cache`
raises ValueError, and since the check sits inside the `try`, the
`finally` block has already restored the four sys attributes to their
original values when the exception propagates. -/
theorem import_state_rejects_unknown_kwargs (kwargs : List (String × Val))
    (body : Body) (s : Sys) (k : String) (v : Val)
    (hk : (k, v) ∈ kwargs)
    (h1 : k ≠ "meta_path") (h2 : k ≠ "path") (h3 : k ≠ "path_hooks")
    (h4 : k ≠ "path_importer_cache") :
    (import_state kwargs body s).2 = Except.error Exc.valueError ∧
    ((import_state kwargs body s).1).meta_path = s.meta_path ∧
    ((import_state kwargs body s).1).path = s.path ∧
    ((import_state kwargs body s).1).path_hooks = s.path_hooks ∧
    ((import_state kwargs body s).1).path_importer_cache =
      s.path_importer_cache := by
  have hmem : (k, v) ∈ (import_state_apply kwargs s).2 := by
    unfold import_state_apply
    dsimp only
    exact mem_popKw _ _ _ k v
      (mem_popKw _ _ _ k v
        (mem_popKw _ _ _ k v (mem_popKw _ _ _ k v hk h1) h2) h3) h4
  have hlen : ((import_state_apply kwargs s).2).length ≠ 0 := by
    intro hz
    rw [List.length_eq_zero] at hz
    rw [hz] at hmem
    cases hmem
  unfold import_state
  dsimp only
  rw [if_pos hlen]
  exact ⟨rfl, rfl, rfl, rfl, rfl⟩

/-- C10, witness: with a single unrecognized keyword argument `bogus`,
`import_state` on the sample state ends in ValueError with all four
attributes back at their original values. -/
theorem import_state_rejects_unknown_kwargs_witness :
    (import_state [("bogus", 9)] idBody s0).2 = Except.error Exc.valueError ∧
    ((import_state [("bogus", 9)] idBody s0).1).meta_path = s0.meta_path ∧
    ((import_state [("bogus", 9)] idBody s0).1).path = s0.path ∧
    ((import_state [("bogus", 9)] idBody s0).1).path_hooks = s0.path_hooks ∧
    ((import_state [("bogus", 9)] idBody s0).1).path_importer_cache =
      s0.path_importer_cache :=
  import_state_rejects_unknown_kwargs [("bogus", 9)] idBody s0 "bogus" 9
    (by decide) (by decide) (by decide) (by decide) (by decide)

/-- Attach a char to the first piece of a split (helper for
`splitChar`). -/
def splitHead (c : Char) : List (List Char) → List (List Char)
  | [] => [[c]]
  | p :: ps => (c :: p) :: ps

/-- Python `str.split(sep)` for a one-character separator, on the
character list of the string. -/
def splitChar (sep : Char) : List Char → List (List Char)
  | [] => [[]]
  | c :: cs =>
      if c = sep then [] :: splitChar sep cs
      else splitHead c (splitChar sep cs)

/-- Python `sep.join(pieces)` for a one-character separator. -/
def joinChar (sep : Char) : List (List Char) → List Char
  | [] => []
  | [p] => p
  | p :: ps => p ++ sep :: joinChar sep ps

/-- The suffix `'.__init__'` stripped by `_ImporterMock.__init__`. -/
def initSuffix : List Char := ".__init__".data

/-- Python `import_name`: the name with a trailing `'.__init__'` removed
(`name[:-len('.__init__')]`), else the name itself. -/
def importNameOf (name : String) : String :=
  if List.isSuffixOf initSuffix name.data then
    String.mk (name.data.take (name.data.length - 9))
  else name

/-- The `__package__` computed by `_ImporterMock.__init__`: `None` for a
top-level name, `name.rsplit('.', 1)[0]` when the name was not an
`__init__` name, else the import name. -/
def packageOf (name import_name : String) : Option String :=
  if ¬ name.data.contains '.' then none
  else if import_name = name then
    some (String.mk (joinChar '.' ((splitChar '.' name.data).dropLast)))
  else some import_name

/-- Outcome of calling a registered `module_code` thunk: it either
returns or raises an exception. -/
inductive CodeRes where
  | ok
  | err (e : Exc)
deriving DecidableEq, Repr

/-- The state built by `_ImporterMock.__init__`: the pre-created module
objects and the registered module code kept for names among them. -/
structure ImporterMock where
  modules : List (String × PyModule)
  module_code : List (String × CodeRes)
deriving DecidableEq, Repr

/-- One iteration of the `for name in names` loop of
`_ImporterMock.__init__`. -/
def initMockStep (module_code : List (String × CodeRes))
    (M : ImporterMock) (name : String) : ImporterMock :=
  let import_name := importNameOf name
  let module : PyModule :=
    { name := import_name, file := "<mock __file__>",
      package := packageOf name import_name, attr := name,
      path := if import_name ≠ name then some ["<mock __path__>"]
              else none }
  { modules := ainsert M.modules import_name module,
    module_code :=
      match alookup module_code import_name with
      | some c => ainsert M.module_code import_name c
      | none => M.module_code }

/-- Python `_ImporterMock(*names, module_code={})`. -/
def initMock (names : List String)
    (module_code : List (String × CodeRes)) : ImporterMock :=
  names.foldl (initMockStep module_code) { modules := [], module_code := [] }

/-- Python `mock_modules.find_module`: `None` when the fullname is not among
the mock's modules, else the mock itself. -/
def find_module (M : ImporterMock) (fullname : String) :
    Option ImporterMock :=
  match alookup M.modules fullname with
  | none => none
  | some _ => some M

/-- Python `mock_modules.load_module` acting on the `sys.modules` dict:
ImportError for an unknown fullname; otherwise the pre-created module is
stored in `sys.modules`, the registered module code (if any) is run, and
on an exception from it the just-stored entry is deleted before the
exception propagates; else the module is returned. -/
def load_module (M : ImporterMock) (mods : List (String × PyModule))
    (fullname : String) : List (String × PyModule) × Except Exc PyModule :=
  match alookup M.modules fullname with
  | none => (mods, Except.error Exc.importError)
  | some module =>
    let mods1 := ainsert mods fullname module
    match alookup M.module_code fullname with
    | none => (mods1, Except.ok module)
    | some CodeRes.ok => (mods1, Except.ok module)
    | some (CodeRes.err e) => (aerase mods1 fullname, Except.error e)

/-- The spec object `mock_spec.find_spec` builds via
`util.spec_from_file_location` from the mock module's `__file__` and
optional `__path__`. -/
structure MSpec where
  name : String
  origin : String
  submodule_search_locations : Option (List String)
deriving DecidableEq, Repr

/-- Python `mock_spec.find_spec`: the `KeyError` from `self.modules[fullname]`
is caught and turned into `None`; otherwise a spec is built and
returned. -/
def find_spec (M : ImporterMock) (fullname : String) : Option MSpec :=
  match alookup M.modules fullname with
  | none => none
  | some module =>
    some { name := fullname, origin := module.file,
           submodule_search_locations := module.path }

/-- Python `mock_spec.create_module`: ImportError when the spec's name is not
among the mock's modules, else the pre-created module. -/
def create_module (M : ImporterMock) (sp : MSpec) : Except Exc PyModule :=
  match alookup M.modules sp.name with
  | none => Except.error Exc.importError
  | some m => Except.ok m

/-- Python `mock_spec.exec_module(module)`, given `module.__spec__.name`: the
`try` block covers both the `self.module_code[...]` lookup and the call,
and `except KeyError: pass` swallows a KeyError from either; any other
exception from the registered code propagates. -/
def exec_module (M : ImporterMock) (spec_name : String) :
    Except Exc Unit :=
  match alookup M.module_code spec_name with
  | none => Except.ok ()
  | some CodeRes.ok => Except.ok ()
  | some (CodeRes.err e) =>
      if e = Exc.keyError then Except.ok () else Except.error e

/-- Python `mock_path_hook(*entries, importer)`: the returned hook raises
ImportError for a path entry not among the configured entries, else
returns the configured importer. -/
def mock_path_hook (entries : List String) (importer : Val)
    (entry : String) : Except Exc Val :=
  if entry ∉ entries then Except.error Exc.importError
  else Except.ok importer

/-- C3: for a fullname not among the modules the mock was constructed
with, `mock_modules.find_module` returns None and
`mock_modules.load_module` raises ImportError; `mock_spec.find_spec`
returns None and `mock_spec.create_module` raises ImportError; and a
`mock_path_hook` hook raises ImportError for an entry not among its
configured entries and returns the configured importer otherwise. -/
theorem mock_not_found_behavior (names : List String)
    (mc : List (String × CodeRes)) (fullname : String)
    (mods : List (String × PyModule)) (sp : MSpec)
    (entries : List String) (importer : Val) (entry entry2 : String)
    (hf : alookup (initMock names mc).modules fullname = none)
    (hsp : sp.name = fullname)
    (he : entry ∉ entries) (he2 : entry2 ∈ entries) :
    find_module (initMock names mc) fullname = none ∧
    (load_module (initMock names mc) mods fullname).2 =
      Except.error Exc.importError ∧
    find_spec (initMock names mc) fullname = none ∧
    create_module (initMock names mc) sp = Except.error Exc.importError ∧
    mock_path_hook entries importer entry = Except.error Exc.importError ∧
    mock_path_hook entries importer entry2 = Except.ok importer := by
  refine ⟨?_, ?_, ?_, ?_, ?_, ?_⟩
  · unfold find_module; rw [hf]
  · unfold load_module; rw [hf]
  · unfold find_spec; rw [hf]
  · unfold create_module; rw [hsp, hf]
  · unfold mock_path_hook; rw [if_pos he]
  · unfold mock_path_hook; rw [if_neg (not_not_intro he2)]

/-- C3, witness: a mock built from the single name `mod` under the
unknown fullname `nope`, and a hook configured for entry `p` probed at
`q` and at `p`. -/
theorem mock_not_found_behavior_witness :
    find_module (initMock ["mod"] []) "nope" = none ∧
    (load_module (initMock ["mod"] []) [] "nope").2 =
      Except.error Exc.importError ∧
    find_spec (initMock ["mod"] []) "nope" = none ∧
    create_module (initMock ["mod"] [])
      { name := "nope", origin := "", submodule_search_locations := none } =
      Except.error Exc.importError ∧
    mock_path_hook ["p"] 5 "q" = Except.error Exc.importError ∧
    mock_path_hook ["p"] 5 "p" = Except.ok 5 :=
  mock_not_found_behavior ["mod"] [] "nope" []
    { name := "nope", origin := "", submodule_search_locations := none }
    ["p"] 5 "q" "p" (by decide) rfl (by decide) (by decide)

/-- C4: for a fullname among the modules the mock was constructed with,
`load_module` stores the pre-created module object in `sys.modules`
under that fullname and returns that same object, provided the
registered module code for that name (if any) runs without raising. -/
theorem load_module_success (names : List String)
    (mc : List (String × CodeRes)) (fullname : String)
    (mods : List (String × PyModule)) (m : PyModule)
    (hm : alookup (initMock names mc).modules fullname = some m)
    (hc : ∀ c, alookup (initMock names mc).module_code fullname = some c →
      c = CodeRes.ok) :
    (load_module (initMock names mc) mods fullname).2 = Except.ok m ∧
    alookup (load_module (initMock names mc) mods fullname).1 fullname =
      some m := by
  unfold load_module
  rw [hm]
  dsimp only
  cases hcode : alookup (initMock names mc).module_code fullname with
  | none => exact ⟨rfl, by simp [ainsert, alookup]⟩
  | some c =>
    have hok := hc c hcode
    subst hok
    exact ⟨rfl, by simp [ainsert, alookup]⟩

/-- C4, witness: a mock constructed from name `a` with module code that
completes; loading `a` stores and returns the pre-created module. -/
theorem load_module_success_witness :
    (load_module (initMock ["a"] [("a", CodeRes.ok)]) [] "a").2 =
      Except.ok { name := "a", file := "<mock __file__>", package := none,
                  attr := "a", path := none } ∧
    alookup (load_module (initMock ["a"] [("a", CodeRes.ok)]) [] "a").1
        "a" =
      some { name := "a", file := "<mock __file__>", package := none,
             attr := "a", path := none } :=
  load_module_success ["a"] [("a", CodeRes.ok)] "a" []
    { name := "a", file := "<mock __file__>", package := none,
      attr := "a", path := none }
    (by decide)
    (by
      intro c h
      rw [show alookup (initMock ["a"] [("a", CodeRes.ok)]).module_code
            "a" = some CodeRes.ok from by decide] at h
      exact (Option.some.inj h).symm)

/-- C8: when the registered module code for a fullname raises, the entry
`load_module` had just stored under that fullname is deleted from
`sys.modules` and the code's exception propagates, so the failed load
leaves no `sys.modules` entry for that name. -/
theorem load_module_failure_cleans (M : ImporterMock)
    (mods : List (String × PyModule)) (fullname : String) (m : PyModule)
    (e : Exc)
    (hm : alookup M.modules fullname = some m)
    (hc : alookup M.module_code fullname = some (CodeRes.err e)) :
    (load_module M mods fullname).2 = Except.error e ∧
    alookup (load_module M mods fullname).1 fullname = none := by
  unfold load_module
  rw [hm]
  dsimp only
  rw [hc]
  exact ⟨rfl, alookup_aerase_self _ _⟩

/-- C8, witness: module code for `a` raises a test-specific exception;
the load ends in that exception and `sys.modules` has no entry for
`a`. -/
theorem load_module_failure_cleans_witness :
    (load_module
        { modules := [("a", m0)],
          module_code := [("a", CodeRes.err (Exc.other 7))] }
        [] "a").2 = Except.error (Exc.other 7) ∧
    alookup
        (load_module
          { modules := [("a", m0)],
            module_code := [("a", CodeRes.err (Exc.other 7))] }
          [] "a").1 "a" = none :=
  load_module_failure_cleans
    { modules := [("a", m0)],
      module_code := [("a", CodeRes.err (Exc.other 7))] }
    [] "a" m0 (Exc.other 7) (by decide) (by decide)

/-- C9: `mock_spec.exec_module` never raises KeyError: with no
registered code it is a no-op, a KeyError raised by the registered code
is silently suppressed, and any other exception from the registered code
propagates. -/
theorem exec_module_keyerror_policy (M : ImporterMock) (nm : String) :
    (alookup M.module_code nm = none → exec_module M nm = Except.ok ()) ∧
    (alookup M.module_code nm = some (CodeRes.err Exc.keyError) →
      exec_module M nm = Except.ok ()) ∧
    (∀ e, e ≠ Exc.keyError →
      alookup M.module_code nm = some (CodeRes.err e) →
      exec_module M nm = Except.error e) ∧
    exec_module M nm ≠ Except.error Exc.keyError := by
  refine ⟨?_, ?_, ?_, ?_⟩
  · intro h; unfold exec_module; rw [h]
  · intro h; unfold exec_module; rw [h]; simp
  · intro e he h; unfold exec_module; rw [h]
    dsimp only
    rw [if_neg he]
  · unfold exec_module
    cases h : alookup M.module_code nm with
    | none => exact fun hx => Except.noConfusion hx
    | some c =>
      cases c with
      | ok => exact fun hx => Except.noConfusion hx
      | err e =>
        show (if e = Exc.keyError then Except.ok () else Except.error e) ≠
          Except.error Exc.keyError
        by_cases hke : e = Exc.keyError
        · rw [if_pos hke]
          exact fun hx => Except.noConfusion hx
        · rw [if_neg hke]
          intro hx
          exact hke (by injection hx)

/-- A sample mock whose registered code raises KeyError for `a` and a
test-specific exception for `b`, with no code registered for `c`. -/
def mock9 : ImporterMock :=
  { modules := [],
    module_code := [("a", CodeRes.err Exc.keyError),
                    ("b", CodeRes.err (Exc.other 3))] }

/-- C9, witness: registered code for `a` raises KeyError (suppressed),
for `b` raises a different exception (propagated), and `c` has no
registered code (no-op). -/
theorem exec_module_keyerror_policy_witness :
    exec_module mock9 "a" = Except.ok () ∧
    exec_module mock9 "b" = Except.error (Exc.other 3) ∧
    exec_module mock9 "c" = Except.ok () :=
  ⟨(exec_module_keyerror_policy mock9 "a").2.1 (by decide),
   (exec_module_keyerror_policy mock9 "b").2.2.1 (Exc.other 3) (by decide)
     (by decide),
   (exec_module_keyerror_policy mock9 "c").1 (by decide)⟩

theorem splitChar_ne_nil (sep : Char) (l : List Char) :
    splitChar sep l ≠ [] := by
  induction l with
  | nil => simp [splitChar]
  | cons c cs ih =>
    simp only [splitChar]
    by_cases h : c = sep
    · rw [if_pos h]; simp
    · rw [if_neg h]
      cases hs : splitChar sep cs with
      | nil => simp [splitHead]
      | cons p ps => simp [splitHead]

theorem splitChar_not_mem (sep : Char) (l : List Char) (h : sep ∉ l) :
    splitChar sep l = [l] := by
  induction l with
  | nil => rfl
  | cons c cs ih =>
    have hc : ¬ c = sep := fun hc => h (by rw [← hc]; exact List.mem_cons_self c cs)
    have hcs : sep ∉ cs := fun hx => h (List.mem_cons_of_mem c hx)
    simp only [splitChar]
    rw [if_neg hc, ih hcs]
    rfl

theorem splitChar_single (sep : Char) (l : List Char) (q : List Char)
    (h : splitChar sep l = [q]) : q = l ∧ sep ∉ l := by
  induction l generalizing q with
  | nil =>
    simp only [splitChar] at h
    injection h with h1 _
    exact ⟨h1.symm, by simp⟩
  | cons c cs ih =>
    by_cases hc : c = sep
    · simp only [splitChar] at h
      rw [if_pos hc] at h
      injection h with h1 h2
      exact absurd h2 (splitChar_ne_nil sep cs)
    · simp only [splitChar] at h
      rw [if_neg hc] at h
      cases hs : splitChar sep cs with
      | nil => exact absurd hs (splitChar_ne_nil sep cs)
      | cons p ps =>
        rw [hs] at h
        simp only [splitHead] at h
        injection h with h1 h2
        rw [h2] at hs
        obtain ⟨hq, hnm⟩ := ih p hs
        refine ⟨by rw [← h1, hq], ?_⟩
        intro hmem
        rcases List.mem_cons.mp hmem with he | hm
        · exact hc he.symm
        · exact hnm hm

/-- The state of the `Reader` instance closed over `create_package`'s
arguments: the `file` argument (a file object or an `Exception`
instance), the `path` argument (a path string or an `Exception`
instance), the `contents` tuple, and the `_path` attribute the methods
record the requested path in. -/
structure ReaderState where
  file : Sum Exc Val
  path : Sum Exc String
  contents : List String
  saved_path : Option String
deriving DecidableEq, Repr

/-- Python `Reader.open_resource(path)`: record the requested path in `_path`;
raise `file` when it is an Exception instance, else return it. -/
def open_resource (r : ReaderState) (p : String) :
    ReaderState × Except Exc Val :=
  let r1 := { r with saved_path := some p }
  match r.file with
  | Sum.inl e => (r1, Except.error e)
  | Sum.inr f => (r1, Except.ok f)

/-- Python `Reader.resource_path(path_)`: record the requested path in `_path`;
raise `path` when it is an Exception instance, else return it. -/
def resource_path (r : ReaderState) (p2 : String) :
    ReaderState × Except Exc String :=
  let r1 := { r with saved_path := some p2 }
  match r.path with
  | Sum.inl e => (r1, Except.error e)
  | Sum.inr p => (r1, Except.ok p)

/-- The per-entry test of `Reader.is_resource`:
`parts = entry.split('/'); len(parts) == 1 and parts[0] == path_`. -/
def isSingleMatch (p2 : String) (entry : String) : Bool :=
  match splitChar '/' entry.data with
  | [q] => decide (q = p2.data)
  | _ => false

/-- Python `Reader.is_resource(path_)`: record the requested path; raise `path`
when it is an Exception instance; else return whether some entry of
`contents` splits on `'/'` into exactly the queried name. -/
def is_resource (r : ReaderState) (p2 : String) :
    ReaderState × Except Exc Bool :=
  let r1 := { r with saved_path := some p2 }
  match r.path with
  | Sum.inl e => (r1, Except.error e)
  | Sum.inr _ => (r1, Except.ok (r.contents.any (isSingleMatch p2)))

/-- Python `Reader.contents()`: raise `path` when it is an Exception instance,
else yield the entries of `contents`. -/
def contentsList (r : ReaderState) : Except Exc (List String) :=
  match r.path with
  | Sum.inl e => Except.error e
  | Sum.inr _ => Except.ok r.contents

/-- The module object `create_package` returns, with its spec data and
the attached `Reader` loader. -/
structure Package where
  name : String
  loader : ReaderState
  origin : String
  is_package : Bool
deriving DecidableEq, Repr

/-- Python `create_package(file, path, is_package=True, contents=())`. -/
def create_package (file : Sum Exc Val) (path : Sum Exc String)
    (is_package : Bool) (contents : List String) : Package :=
  { name := "testingpackage",
    loader := { file := file, path := path, contents := contents,
                saved_path := none },
    origin := "does-not-exist",
    is_package := is_package }

theorem isSingleMatch_true (p2 entry : String) :
    isSingleMatch p2 entry = true ↔ (entry = p2 ∧ '/' ∉ p2.data) := by
  unfold isSingleMatch
  cases hs : splitChar '/' entry.data with
  | nil => exact absurd hs (splitChar_ne_nil '/' entry.data)
  | cons q ps =>
    cases ps with
    | nil =>
      obtain ⟨hq, hnm⟩ := splitChar_single '/' entry.data q hs
      constructor
      · intro hb
        have hqd : q = p2.data := of_decide_eq_true hb
        have hde : entry.data = p2.data := by rw [← hq, hqd]
        refine ⟨String.ext hde, ?_⟩
        rw [← hde]
        exact hnm
      · rintro ⟨he, hns⟩
        subst he
        rw [hq]
        exact decide_eq_true rfl
    | cons q2 ps2 =>
      constructor
      · intro hb
        cases hb
      · rintro ⟨he, hns⟩
        exfalso
        subst he
        rw [splitChar_not_mem '/' entry.data hns] at hs
        simp at hs

/-- C6: for every package built by `create_package`, the attached
reader's `open_resource` records the requested path and returns `file`,
raising it instead when `file` is an Exception instance;
`resource_path`, `is_resource` and `contents` each raise `path` when
`path` is an Exception instance; and otherwise `is_resource` answers
true exactly when the queried name appears in `contents` as a
single-component (slash-free) entry. -/
theorem create_package_reader_behavior (file : Sum Exc Val)
    (path : Sum Exc String) (is_pkg : Bool) (contents : List String)
    (p : String) :
    ((open_resource (create_package file path is_pkg contents).loader
        p).1).saved_path = some p ∧
    (∀ e, file = Sum.inl e →
      (open_resource (create_package file path is_pkg contents).loader
        p).2 = Except.error e) ∧
    (∀ f, file = Sum.inr f →
      (open_resource (create_package file path is_pkg contents).loader
        p).2 = Except.ok f) ∧
    (∀ e, path = Sum.inl e →
      (resource_path (create_package file path is_pkg contents).loader
          p).2 = Except.error e ∧
      (is_resource (create_package file path is_pkg contents).loader
          p).2 = Except.error e ∧
      contentsList (create_package file path is_pkg contents).loader =
        Except.error e) ∧
    (∀ ps, path = Sum.inr ps →
      ((is_resource (create_package file path is_pkg contents).loader
          p).2 = Except.ok true ↔ (p ∈ contents ∧ '/' ∉ p.data))) := by
  refine ⟨?_, ?_, ?_, ?_, ?_⟩
  · unfold open_resource create_package
    dsimp only
    cases file <;> rfl
  · intro e he
    subst he
    rfl
  · intro f hf
    subst hf
    rfl
  · intro e he
    subst he
    exact ⟨rfl, rfl, rfl⟩
  · intro ps hps
    subst hps
    show Except.ok (contents.any (isSingleMatch p)) = Except.ok true ↔ _
    constructor
    · intro h
      have hany : contents.any (isSingleMatch p) = true := by
        injection h
      obtain ⟨x, hx, hm⟩ := List.any_eq_true.mp hany
      obtain ⟨hxe, hns⟩ := (isSingleMatch_true p x).mp hm
      exact ⟨hxe ▸ hx, hns⟩
    · rintro ⟨hmem, hns⟩
      have : contents.any (isSingleMatch p) = true :=
        List.any_eq_true.mpr
          ⟨p, hmem, (isSingleMatch_true p p).mpr ⟨rfl, hns⟩⟩
      rw [this]

/-- C6, witness: a package whose reader holds a real file object and
path, with contents `a` and `b/c`: `open_resource` records the request
and returns the file, and `is_resource` answers per the slash-free
membership criterion at the query `a`. -/
theorem create_package_reader_behavior_witness :
    ((open_resource
        (create_package (Sum.inr 5) (Sum.inr "zz") true ["a", "b/c"]).loader
        "a").1).saved_path = some "a" ∧
    (open_resource
        (create_package (Sum.inr 5) (Sum.inr "zz") true ["a", "b/c"]).loader
        "a").2 = Except.ok 5 ∧
    ((is_resource
        (create_package (Sum.inr 5) (Sum.inr "zz") true ["a", "b/c"]).loader
        "a").2 = Except.ok true ↔
      ("a" ∈ ["a", "b/c"] ∧ '/' ∉ "a".data)) :=
  ⟨(create_package_reader_behavior (Sum.inr 5) (Sum.inr "zz") true
      ["a", "b/c"] "a").1,
   (create_package_reader_behavior (Sum.inr 5) (Sum.inr "zz") true
      ["a", "b/c"] "a").2.2.1 5 rfl,
   (create_package_reader_behavior (Sum.inr 5) (Sum.inr "zz") true
      ["a", "b/c"] "a").2.2.2.2 "zz" rfl⟩

/-- C5: every error the embedded helpers raise is either one the host
host protocol already defines (ValueError from `uncache` and
`import_state`, ImportError from the mock finder/loader methods and the
path hook) or an exception supplied by the caller — by the managed body,
the wrapped function, the registered module code, or the Exception
instances handed to `create_package` — surfaced unmodified.  No helper
produces an error of its own devising. -/
theorem helpers_raise_only_protocol_errors :
    (∀ (names : List String) (body : Body) (s : Sys) (e : Exc),
      (uncache names body s).2 = Except.error e →
      e = Exc.valueError ∨
        (body { s with
          modules := (uncacheEnter names s.modules).1 }).2 =
          Except.error e) ∧
    (∀ (kwargs : List (String × Val)) (body : Body) (s : Sys) (e : Exc),
      (import_state kwargs body s).2 = Except.error e →
      e = Exc.valueError ∨
        (body (import_state_apply kwargs s).1).2 = Except.error e) ∧
    (∀ (p : Val) (body : Body) (s : Sys) (e : Exc),
      ( temporary_pycache_prefix p body s).2 = Except.error e →
      (body { s with pycache_prefix := p }).2 = Except.error e) ∧
    (∀ (dwb : Bool) (fxn : Sys → Sys × Except Exc Val) (s : Sys) (e : Exc),
      (writes_bytecode_files dwb fxn s).2 = Except.error e →
      (fxn { s with dont_write_bytecode := false }).2 = Except.error e) ∧
    (∀ (M : ImporterMock) (mods : List (String × PyModule))
        (fullname : String) (e : Exc),
      (load_module M mods fullname).2 = Except.error e →
      e = Exc.importError ∨
        alookup M.module_code fullname = some (CodeRes.err e)) ∧
    (∀ (M : ImporterMock) (sp : MSpec) (e : Exc),
      create_module M sp = Except.error e → e = Exc.importError) ∧
    (∀ (entries : List String) (importer : Val) (entry : String) (e : Exc),
      mock_path_hook entries importer entry = Except.error e →
      e = Exc.importError) ∧
    (∀ (M : ImporterMock) (nm : String) (e : Exc),
      exec_module M nm = Except.error e →
      alookup M.module_code nm = some (CodeRes.err e) ∧
        e ≠ Exc.keyError) ∧
    (∀ (r : ReaderState) (p : String) (e : Exc),
      (open_resource r p).2 = Except.error e → r.file = Sum.inl e) ∧
    (∀ (r : ReaderState) (p : String) (e : Exc),
      (resource_path r p).2 = Except.error e → r.path = Sum.inl e) ∧
    (∀ (r : ReaderState) (p : String) (e : Exc),
      (is_resource r p).2 = Except.error e → r.path = Sum.inl e) ∧
    (∀ (r : ReaderState) (e : Exc),
      contentsList r = Except.error e → r.path = Sum.inl e) := by
  refine ⟨?_, ?_, ?_, ?_, ?_, ?_, ?_, ?_, ?_, ?_, ?_, ?_⟩
  · intro names body s e
    unfold uncache
    dsimp only
    split
    · intro h
      exact Or.inl (by injection h with h1; exact h1.symm)
    · intro h
      exact Or.inr h
  · intro kwargs body s e
    unfold import_state
    dsimp only
    split
    · intro h
      exact Or.inl (by injection h with h1; exact h1.symm)
    · intro h
      exact Or.inr h
  · intro p body s e h
    exact h
  · intro dwb fxn s e
    unfold writes_bytecode_files
    split
    · intro h
      exact absurd h (fun hx => Except.noConfusion hx)
    · intro h
      exact h
  · intro M mods fullname e
    unfold load_module
    cases alookup M.modules fullname with
    | none =>
      intro h
      exact Or.inl (by injection h with h1; exact h1.symm)
    | some m =>
      dsimp only
      cases hc : alookup M.module_code fullname with
      | none => intro h; exact absurd h (fun hx => Except.noConfusion hx)
      | some c =>
        cases c with
        | ok => intro h; exact absurd h (fun hx => Except.noConfusion hx)
        | err e2 =>
          intro h
          have he : e2 = e := by injection h
          exact Or.inr (by rw [he])
  · intro M sp e
    unfold create_module
    cases alookup M.modules sp.name with
    | none => intro h; injection h with h1; exact h1.symm
    | some m => intro h; exact absurd h (fun hx => Except.noConfusion hx)
  · intro entries importer entry e
    unfold mock_path_hook
    split
    · intro h; injection h with h1; exact h1.symm
    · intro h; exact absurd h (fun hx => Except.noConfusion hx)
  · intro M nm e
    unfold exec_module
    cases hc : alookup M.module_code nm with
    | none => intro h; exact absurd h (fun hx => Except.noConfusion hx)
    | some c =>
      cases c with
      | ok => intro h; exact absurd h (fun hx => Except.noConfusion hx)
      | err e2 =>
        show (if e2 = Exc.keyError then Except.ok () else Except.error e2) =
            Except.error e →
          some (CodeRes.err e2) = some (CodeRes.err e) ∧ e ≠ Exc.keyError
        by_cases hke : e2 = Exc.keyError
        · rw [if_pos hke]
          intro h
          exact absurd h (fun hx => Except.noConfusion hx)
        · rw [if_neg hke]
          intro h
          have he : e2 = e := by injection h
          exact ⟨by rw [he], by rw [← he]; exact hke⟩
  · intro r p e
    unfold open_resource
    dsimp only
    cases hf : r.file with
    | inl e1 =>
      intro h
      have he1 : e1 = e := by injection h
      rw [he1]
    | inr f => intro h; exact absurd h (fun hx => Except.noConfusion hx)
  · intro r p e
    unfold resource_path
    dsimp only
    cases hf : r.path with
    | inl e1 =>
      intro h
      have he1 : e1 = e := by injection h
      rw [he1]
    | inr ps => intro h; exact absurd h (fun hx => Except.noConfusion hx)
  · intro r p e
    unfold is_resource
    dsimp only
    cases hf : r.path with
    | inl e1 =>
      intro h
      have he1 : e1 = e := by injection h
      rw [he1]
    | inr ps => intro h; exact absurd h (fun hx => Except.noConfusion hx)
  · intro r e
    unfold contentsList
    cases hf : r.path with
    | inl e1 =>
      intro h
      have he1 : e1 = e := by injection h
      rw [he1]
    | inr ps => intro h; exact absurd h (fun hx => Except.noConfusion hx)

/-- C5, witness: `uncache("sys")` raises the host ValueError, and the
error `exec_module` lets through for `b` is exactly the exception the
registered module code raised, and is not a KeyError. -/
theorem helpers_raise_only_protocol_errors_witness :
    (Exc.valueError = Exc.valueError ∨
      (idBody { s0 with
        modules := (uncacheEnter ["sys"] ( Sys.modules s0)).1 }).2 =
        Except.error Exc.valueError) ∧
    (alookup ( ImporterMock.module_code mock9) "b" =
        some (CodeRes.err (Exc.other 3)) ∧
      Exc.other 3 ≠ Exc.keyError) :=
  ⟨helpers_raise_only_protocol_errors.1 ["sys"] idBody s0
      Exc.valueError rfl,
   helpers_raise_only_protocol_errors.2.2.2.2.2.2.2.1 mock9 "b"
      (Exc.other 3) rfl⟩

/-- Modelled from the spec: the host regex engine (the runtime's `re`
module and its sre matching engine), which `extra_tests/snippets/
stdlib_re.py` exercises, is not part of the sources here; the spec
appeals to its "standard matching semantics".  Regex abstract syntax
for the constructs the script uses: literals, character classes (lists
of inclusive ranges), concatenation, greedy star/plus, and numbered
capture groups. -/
inductive Re where
  | eps
  | lit (c : Char)
  | cls (ranges : List (Char × Char))
  | seq (a b : Re)
  | star (a : Re)
  | plus (a : Re)
  | grp (k : Nat) (a : Re)
deriving DecidableEq, Repr

/-- Capture slots: group index with start and stop positions. -/
abbrev Caps := List (Nat × Nat × Nat)

/-- Character class membership by codepoint ranges. -/
def inCls (ranges : List (Char × Char)) (c : Char) : Bool :=
  ranges.any (fun r =>
    decide (r.1.toNat ≤ c.toNat) && decide (c.toNat ≤ r.2.toNat))

/-- Record the latest span matched by group `k` (a repeated group keeps
its last repetition, as the host engine does). -/
def setCap (caps : Caps) (k i j : Nat) : Caps :=
  (k, i, j) :: caps.filter (fun t => decide (t.1 ≠ k))

/-- Modelled from the spec: the host engine's backtracking matcher.
`runRe s fuel r i caps` lists the positions where `r` can stop matching
when started at position `i` of `s`, most-preferred first — greedy
repetition tries longer continuations before shorter ones, and a
repetition body that consumed nothing is not repeated.  The fuel only
bounds recursion depth; it is chosen large enough for every concrete
run below. -/
def runRe (s : List Char) : Nat → Re → Nat → Caps → List (Nat × Caps)
  | 0, _, _, _ => []
  | fuel+1, r, i, caps =>
    match r with
    | Re.eps => [(i, caps)]
    | Re.lit c =>
      match s.get? i with
      | some d => if d = c then [(i+1, caps)] else []
      | none => []
    | Re.cls ranges =>
      match s.get? i with
      | some d => if inCls ranges d then [(i+1, caps)] else []
      | none => []
    | Re.seq a b =>
      (runRe s fuel a i caps).flatMap (fun x => runRe s fuel b x.1 x.2)
    | Re.star a =>
      (runRe s fuel a i caps).flatMap
          (fun x => if i < x.1 then runRe s fuel (Re.star a) x.1 x.2
                    else []) ++
        [(i, caps)]
    | Re.plus a => runRe s fuel (Re.seq a (Re.star a)) i caps
    | Re.grp k a =>
      (runRe s fuel a i caps).map (fun x => (x.1, setCap x.2 k i x.1))

/-- Fuel bound for the concrete runs below. -/
def FUEL : Nat := 400

/-- Best (leftmost-greedy) way for `r` to match starting at `i`. -/
def matchAt (r : Re) (s : List Char) (i : Nat) : Option (Nat × Caps) :=
  (runRe s FUEL r i []).head?

/-- A match object: the span and the group captures. -/
structure MRes where
  mstart : Nat
  mstop : Nat
  caps : Caps
deriving DecidableEq, Repr

/-- Python `pattern.match(s)`: anchored at position 0, not at the end. -/
def reMatch (r : Re) (s : List Char) : Option MRes :=
  (matchAt r s 0).map (fun x => { mstart := 0, mstop := x.1, caps := x.2 })

/-- Python `pattern.fullmatch(s)`: anchored at 0 and required to consume all of
`s`; the first backtracking alternative that reaches the end wins. -/
def reFullmatch (r : Re) (s : List Char) : Option MRes :=
  ((runRe s FUEL r 0 []).find? (fun x => decide (x.1 = s.length))).map
    (fun x => { mstart := 0, mstop := x.1, caps := x.2 })

/-- Python `re.search` scan: try each start position left to right. -/
def searchAux (r : Re) (s : List Char) : Nat → Nat → Option MRes
  | _, 0 => none
  | i, k+1 =>
    match matchAt r s i with
    | some x => some { mstart := i, mstop := x.1, caps := x.2 }
    | none => searchAux r s (i+1) k

/-- Python `re.search(pattern, s)`. -/
def reSearch (r : Re) (s : List Char) : Option MRes :=
  searchAux r s 0 (s.length + 1)

/-- The substring `s[i:j]`. -/
def sliceStr (s : List Char) (i j : Nat) : List Char := (s.take j).drop i

/-- Python `match.span()`. -/
def mspan (m : MRes) : Nat × Nat := (m.mstart, m.mstop)

/-- The recorded span of group `k`, if it matched. -/
def capOf (caps : Caps) (k : Nat) : Option (Nat × Nat) :=
  (caps.find? (fun t => decide (t.1 = k))).map (fun t => t.2)

/-- Python `match.group(k)`: group 0 is the whole match. -/
def groupOf (s : List Char) (m : MRes) (k : Nat) : Option (List Char) :=
  if k = 0 then some (sliceStr s m.mstart m.mstop)
  else (capOf m.caps k).map (fun x => sliceStr s x.1 x.2)

/-- Python `pattern.match(s).group(k)` (`none` when there is no match or the
group did not participate). -/
def matchGroup (r : Re) (s : List Char) (k : Nat) : Option (List Char) :=
  (reMatch r s).bind (fun m => groupOf s m k)

/-- Python `re.search(...).group(k)`. -/
def searchGroup (r : Re) (s : List Char) (k : Nat) : Option (List Char) :=
  (reSearch r s).bind (fun m => groupOf s m k)

/-- Python `pattern.match(s).span()`. -/
def matchSpan (r : Re) (s : List Char) : Option (Nat × Nat) :=
  (reMatch r s).map mspan

/-- Python `re.search(...).span()` (also giving `start()` and `end()`). -/
def searchSpan (r : Re) (s : List Char) : Option (Nat × Nat) :=
  (reSearch r s).map mspan

/-- Python `pattern.fullmatch(s).span()`. -/
def fullmatchSpan (r : Re) (s : List Char) : Option (Nat × Nat) :=
  (reFullmatch r s).map mspan

/-- Python `match.groups()` for a pattern with `n` groups. -/
def matchGroups (r : Re) (s : List Char) (n : Nat) :
    Option (List (Option (List Char))) :=
  (reMatch r s).map
    (fun m => (List.range n).map (fun k => groupOf s m (k+1)))

/-- The regex matching a literal string. -/
def rstr : List Char → Re
  | [] => Re.eps
  | [c] => Re.lit c
  | c :: cs => Re.seq (Re.lit c) (rstr cs)

/-- Modelled from the spec: the characters `re.escape` prefixes with a
backslash (the engine's special characters). -/
def escapeSpecial : List Char :=
  ['(', ')', '[', ']', Char.ofNat 123, Char.ofNat 125, '?', '*', '+',
   '-', '|', '^', '$', '\\', '.', '&', '~', Char.ofNat 35, ' ', '\t',
   '\n', '\r', Char.ofNat 11, Char.ofNat 12]

/-- Modelled from the spec: `re.escape`. -/
def reEscape (s : List Char) : List Char :=
  s.flatMap (fun c => if escapeSpecial.contains c then ['\\', c] else [c])

/-- The script's `idpattern`, `([_a-z][_a-z0-9]*)`. -/
def idpatternRe : Re :=
  Re.grp 1 (Re.seq (Re.cls [('_', '_'), ('a', 'z')])
    (Re.star (Re.cls [('_', '_'), ('a', 'z'), ('0', '9')])))

/-- C7: under the modelled standard matching semantics, every assertion
of `extra_tests/snippets/stdlib_re.py` holds — in particular
`re.search('ello', 'Hello world')` is a match with `start() = 1` and
`end() = 5`, and `re.escape('python.exe')` is `python\.exe`; the
remaining conjuncts are the script's char-class, charset, bigcharset,
repeat, mark and repeat-group assertions in source order. -/
theorem stdlib_re_assertions :
    (reSearch (rstr "ello".data) "Hello world".data).isSome = true ∧
    searchSpan (rstr "ello".data) "Hello world".data = some (1, 5) ∧
    reEscape "python.exe".data = "python\\.exe".data ∧
    searchGroup idpatternRe "7382 _boe0+2".data 0 = some "_boe0".data ∧
    matchSpan (Re.cls [('a', 'z')]) "a".data = some (0, 1) ∧
    fullmatchSpan (Re.cls [('a', 'z')]) "z".data = some (0, 1) ∧
    matchGroup (Re.star (Re.cls [('_', '_'), ('a', 'z'), ('0', '9')]))
      "_09az".data 0 = some "_09az".data ∧
    matchGroup (Re.star (Re.cls [('你', '你'), ('好', '好'), ('a', 'z')]))
      "a好z你?".data 0 = some "a好z你".data ∧
    matchSpan (Re.star (Re.lit 'a')) "aaa".data = some (0, 3) ∧
    matchGroup (Re.seq (rstr "abc".data) (Re.star (Re.lit 'd')))
      "abcdddd".data 0 = some "abcdddd".data ∧
    matchGroup (Re.seq (rstr "abc".data) (Re.star (Re.lit 'd')))
      "abc".data 0 = some "abc".data ∧
    matchGroup (Re.seq (rstr "abc".data)
        (Re.seq (Re.star (Re.lit 'd')) (Re.lit 'e')))
      "abce".data 0 = some "abce".data ∧
    matchGroup (Re.seq (rstr "abc".data)
        (Re.seq (Re.star (Re.lit 'd')) (Re.plus (Re.lit 'e'))))
      "abcddeee".data 0 = some "abcddeee".data ∧
    matchGroup (Re.seq (rstr "abc".data) (Re.plus (Re.lit 'd')))
      "abcddd".data 0 = some "abcddd".data ∧
    matchGroup (Re.seq (Re.grp 1 (Re.lit 'a')) (Re.lit 'b'))
      "ab".data 0 = some "ab".data ∧
    matchGroup (Re.seq (Re.grp 1 (Re.lit 'a')) (Re.lit 'b'))
      "ab".data 1 = some "a".data ∧
    matchGroup (Re.seq (Re.lit 'a')
        (Re.seq (Re.grp 1 (Re.lit 'b')) (Re.grp 2 (rstr "cd".data))))
      "abcd".data 0 = some "abcd".data ∧
    matchGroup (Re.seq (Re.lit 'a')
        (Re.seq (Re.grp 1 (Re.lit 'b')) (Re.grp 2 (rstr "cd".data))))
      "abcd".data 1 = some "b".data ∧
    matchGroup (Re.seq (Re.lit 'a')
        (Re.seq (Re.grp 1 (Re.lit 'b')) (Re.grp 2 (rstr "cd".data))))
      "abcd".data 2 = some "cd".data ∧
    (reMatch (Re.plus (Re.grp 1 (rstr "ab".data))) "abab".data).isSome =
      true ∧
    matchGroup (Re.seq (Re.grp 1 (Re.lit 'a')) (Re.seq
        (Re.grp 2 (Re.lit 'b')) (Re.star (Re.grp 3 (rstr "cd".data)))))
      "abcdcdcd".data 0 = some "abcdcdcd".data ∧
    matchGroup (Re.seq (Re.grp 1 (Re.lit 'a')) (Re.seq
        (Re.grp 2 (Re.lit 'b')) (Re.star (Re.grp 3 (rstr "cd".data)))))
      "abcdcdcd".data 1 = some "a".data ∧
    matchGroup (Re.seq (Re.grp 1 (Re.lit 'a')) (Re.seq
        (Re.grp 2 (Re.lit 'b')) (Re.star (Re.grp 3 (rstr "cd".data)))))
      "abcdcdcd".data 2 = some "b".data ∧
    matchGroup (Re.seq (Re.grp 1 (Re.lit 'a')) (Re.seq
        (Re.grp 2 (Re.lit 'b')) (Re.star (Re.grp 3 (rstr "cd".data)))))
      "abcdcdcd".data 3 = some "cd".data ∧
    matchGroup (Re.seq (rstr "ab".data)
        (Re.seq (Re.plus (Re.grp 1 Re.eps)) (rstr "cd".data)))
      "abcd".data 0 = some "abcd".data ∧
    matchGroups (Re.plus (Re.grp 1 (Re.lit 'a'))) "aaa".data 1 =
      some [some "a".data] ∧
    matchGroups (Re.grp 1 (Re.plus (Re.lit 'a'))) "aaa".data 1 =
      some [some "aaa".data] := by
  refine ⟨?_, ?_, ?_, ?_, ?_, ?_, ?_, ?_, ?_, ?_, ?_, ?_, ?_, ?_, ?_,
    ?_, ?_, ?_, ?_, ?_, ?_, ?_, ?_, ?_, ?_, ?_, ?_⟩ <;> rfl
